import Mathlib

/-
Verification development for the Arka MCP Gateway authorization and
credential broker.

The repository ships the administration frontend (React) together with
deployment scripts; the backend broker itself (credential vault, provider
registry, authorization flow engine, permission resolution engine, access
token manager, temporary credential manager) is not part of the checked-in
sources.  Where a claim is decided by backend behaviour, the corresponding
definition below is modelled from the specification and carries a doc
comment starting with "Modelled from the spec:".  Frontend logic that does
appear in the sources (the axios response interceptor in
frontend/src/lib/api.js, the password-change validator, the local
permission-state updates in AdminUsers.jsx, the credential payload
builders) is embedded directly from that code.
-/

/- ===================== Credential Vault (spec 4.1) ===================== -/

/-- Modelled from the spec: the vault's deterministic failure on key
mismatch.  The backend (Fernet symmetric encryption, per the deployment
notes) is not in the sources. -/
inductive DecryptionError where
  | keyMismatch
deriving DecidableEq

/-- Modelled from the spec: a ciphertext produced by the vault.  The
authenticity tag that makes decryption under the wrong key fail
deterministically is abstracted as a key tag. -/
structure Ciphertext where
  keyTag : Nat
  payload : List Nat
deriving DecidableEq

/-- Modelled from the spec: `encrypt(plaintext) -> ciphertext` over byte
strings (each byte < 256), under a process-wide key. -/
def encrypt (key : Nat) (plaintext : List Nat) : Ciphertext :=
  { keyTag := key, payload := plaintext.map (fun b => (b + key) % 256) }

/-- Modelled from the spec: `decrypt(ciphertext) -> plaintext`, with
deterministic failure (`DecryptionError`) when the key does not match the
one the ciphertext was produced under. -/
def decrypt (key : Nat) (c : Ciphertext) : Except DecryptionError (List Nat) :=
  if c.keyTag = key then
    Except.ok (c.payload.map (fun b => (b + (256 - key % 256)) % 256))
  else
    Except.error DecryptionError.keyMismatch

/- ============== Permission Resolution Engine (spec 4.4) ============== -/

/-- Modelled from the spec: the permission store.  `orgEnabled` is the
organization-level flag per tool (OrgToolPermission); `overrides` are the
UserToolOverride rows as (user_id, tool_id, enabled) triples. -/
structure PermDB where
  orgEnabled : Nat → Bool
  overrides : List (Nat × Nat × Bool)

/-- Modelled from the spec: look up the UserToolOverride row for a
(user, tool) pair; `none` means "inherit org default". -/
def lookupOverride (db : PermDB) (userId toolId : Nat) : Option Bool :=
  (db.overrides.find? (fun r => r.1 == userId && r.2.1 == toolId)).map (fun r => r.2.2)

/-- Modelled from the spec: `effectiveAccess(user, tool) -> bool`: false if
`org_enabled(tool)` is false; else the override row's `enabled` if one
exists; else true. -/
def effectiveAccess (db : PermDB) (userId toolId : Nat) : Bool :=
  if db.orgEnabled toolId = false then false
  else
    match lookupOverride db userId toolId with
    | some b => b
    | none => true

/-- Modelled from the spec: `setUserOverride(user, tool, bool)` creates or
updates the override row. -/
def setUserOverride (db : PermDB) (userId toolId : Nat) (enabled : Bool) : PermDB :=
  { db with overrides := (userId, toolId, enabled) ::
      db.overrides.filter (fun r => !(r.1 == userId && r.2.1 == toolId)) }

/-- Modelled from the spec: `clearUserOverride(user, tool)` deletes the
override row, reverting to inherited behaviour. -/
def clearUserOverride (db : PermDB) (userId toolId : Nat) : PermDB :=
  { db with overrides := db.overrides.filter (fun r => !(r.1 == userId && r.2.1 == toolId)) }

/-- One row of the admin UI's per-user tool table, as consumed by
AdminUsers.jsx (tool_id, org_enabled, user_override, effective_access). -/
structure UserToolRow where
  tool_id : Nat
  org_enabled : Bool
  user_override : Option Bool
  effective_access : Bool
deriving DecidableEq

/-- Embedding of the local-state update in `toggleUserTool`
(frontend/src/pages/AdminUsers.jsx lines 132-142): the toggled tool's
override becomes `!currentEnabled` and its effective access becomes
`org_enabled ? !currentEnabled : false`. -/
def toggleUserToolUpdate (rows : List UserToolRow) (toolId : Nat) (currentEnabled : Bool) :
    List UserToolRow :=
  rows.map (fun tool =>
    if tool.tool_id = toolId then
      { tool with
          user_override := some (!currentEnabled),
          effective_access := if tool.org_enabled then !currentEnabled else false }
    else tool)

/-- Embedding of the local-state update in `removeUserOverride`
(frontend/src/pages/AdminUsers.jsx lines 166-176): the override is cleared
and effective access reverts to `org_enabled`. -/
def removeUserOverrideUpdate (rows : List UserToolRow) (toolId : Nat) : List UserToolRow :=
  rows.map (fun tool =>
    if tool.tool_id = toolId then
      { tool with user_override := none, effective_access := tool.org_enabled }
    else tool)

/- ================= Access Token Manager (spec 4.5) =================== -/

/-- Modelled from the spec: an MCPAccessToken row; `revoked` stands for
`revoked_at` being set. -/
structure MCPAccessToken where
  id : Nat
  userId : Nat
  tokenHash : Nat
  revoked : Bool
deriving DecidableEq

/-- Modelled from the spec: the one-way token hash, abstracted as an
injective function on token values. -/
def hashToken (plaintext : Nat) : Nat := plaintext

/-- Modelled from the spec: the MCP access token store. -/
structure TokenDB where
  tokens : List MCPAccessToken
  nextId : Nat

/-- Modelled from the spec: revoke (set `revoked_at` on) a token when it
belongs to the given user and is not yet revoked. -/
def revokeIfActive (userId : Nat) (tk : MCPAccessToken) : MCPAccessToken :=
  if tk.userId == userId && !tk.revoked then { tk with revoked := true } else tk

/-- Modelled from the spec: `issue(user, ...)` revokes every prior
non-revoked token of the user, then inserts the new row holding only the
hash of the plaintext token. -/
def issue (db : TokenDB) (userId plaintext : Nat) : TokenDB :=
  { tokens :=
      { id := db.nextId, userId := userId, tokenHash := hashToken plaintext, revoked := false } ::
        db.tokens.map (revokeIfActive userId),
    nextId := db.nextId + 1 }

/-- Modelled from the spec: `validate(presentedToken) -> UserId` succeeds
only when a matching non-revoked hash exists. -/
def validate (db : TokenDB) (presented : Nat) : Option Nat :=
  (db.tokens.find? (fun tk => tk.tokenHash == hashToken presented && !tk.revoked)).map
    (fun tk => tk.userId)

/-- The non-revoked tokens a user currently holds. -/
def activeTokens (db : TokenDB) (userId : Nat) : List MCPAccessToken :=
  db.tokens.filter (fun tk => tk.userId == userId && !tk.revoked)

/- ================ OAuth Provider Registry (spec 4.2, 3) ============== -/

/-- Modelled from the spec: a stored OAuthProviderConfig row; the client
secret is held only as vault ciphertext. -/
structure OAuthProviderConfig where
  providerName : String
  clientId : String
  clientSecretCipher : Ciphertext
  redirectUri : String
  authUrl : String
  tokenUrl : String
  scopes : List String
  secretUpdatedAt : Nat
deriving DecidableEq

/-- An update request against a provider configuration; `clientSecret =
none` means the field was omitted from the request body. -/
structure ProviderUpdateRequest where
  providerName : String
  clientId : String
  clientSecret : Option (List Nat)
  redirectUri : String
  authUrl : String
  tokenUrl : String
  scopes : List String
deriving DecidableEq

/-- Modelled from the spec: updating a provider configuration; an omitted
`client_secret` retains the existing encrypted value and its timestamp. -/
def updateProviderConfig (key : Nat) (cfg : OAuthProviderConfig)
    (req : ProviderUpdateRequest) (now : Nat) : OAuthProviderConfig :=
  { providerName := req.providerName
    clientId := req.clientId
    clientSecretCipher :=
      match req.clientSecret with
      | some s => encrypt key s
      | none => cfg.clientSecretCipher
    redirectUri := req.redirectUri
    authUrl := req.authUrl
    tokenUrl := req.tokenUrl
    scopes := req.scopes
    secretUpdatedAt :=
      match req.clientSecret with
      | some _ => now
      | none => cfg.secretUpdatedAt }

/-- Store a fresh client secret through the vault (the create path of the
registry, modelled from the spec). -/
def storeSecret (key : Nat) (cfg : OAuthProviderConfig) (secret : List Nat) (now : Nat) :
    OAuthProviderConfig :=
  { cfg with clientSecretCipher := encrypt key secret, secretUpdatedAt := now }

/-- What a read endpoint exposes about a provider configuration: a hint,
a configured flag and the update timestamp, never the secret itself. -/
structure ProviderConfigView where
  clientId : String
  clientSecretHint : List Nat
  clientSecretConfigured : Bool
  clientSecretUpdatedAt : Nat
  redirectUri : String
deriving DecidableEq

/-- Last four bytes of a secret, the non-reversible hint of spec 3. -/
def lastFour (s : List Nat) : List Nat := s.drop (s.length - 4)

/-- Modelled from the spec: read endpoints return only a non-reversible
hint (last 4 chars) plus an update timestamp, never plaintext. -/
def readProviderConfig (key : Nat) (cfg : OAuthProviderConfig) : ProviderConfigView :=
  { clientId := cfg.clientId
    clientSecretHint := lastFour (((decrypt key cfg.clientSecretCipher).toOption).getD [])
    clientSecretConfigured := !cfg.clientSecretCipher.payload.isEmpty
    clientSecretUpdatedAt := cfg.secretUpdatedAt
    redirectUri := cfg.redirectUri }

/-- JavaScript truthiness of `newSecret.trim()`: true iff the string holds
some non-whitespace character. -/
def trimTruthy (s : String) : Bool :=
  !(s.data.dropWhile Char.isWhitespace).isEmpty

/-- Embedding of `handleSave` in MCPServerSettingsModal (src/unnamed/part_008
lines 152-162): the credentials payload carries `client_secret` only when
the secret edit mode is active and the entered value is non-blank. -/
def buildCredentialsSecret (secretEditMode : Bool) (newSecret : String) : Option String :=
  if secretEditMode && trimTruthy newSecret then some newSecret else none

/-- Embedding of `handleUpdateOAuthProvider` (src/unnamed/part_003 line 209):
`client_secret: oauthForm.client_secret || undefined` omits the field when
the form value is the empty string. -/
def updateFormSecret (formSecret : String) : Option String :=
  if formSecret = "" then none else some formSecret

/- ================ Authorization Flow Engine (spec 4.3) =============== -/

/-- Modelled from the spec: callback failure modes. -/
inductive CallbackError where
  | invalidState
  | providerError (description : String)
deriving DecidableEq

/-- Modelled from the spec: a persisted CSRF `state` token with its TTL,
keyed to (user, server). -/
structure PendingState where
  userId : Nat
  serverId : Nat
  stateToken : String
  expiresAt : Nat
deriving DecidableEq

/-- Modelled from the spec: a UserServerGrant row. -/
structure UserServerGrant where
  userId : Nat
  serverId : Nat
  isAuthorized : Bool
  accessTokenCipher : Option Ciphertext
  refreshTokenCipher : Option Ciphertext
deriving DecidableEq

/-- Modelled from the spec: flow-engine state (pending `state` tokens and
grants). -/
structure AuthFlowDB where
  pending : List PendingState
  grants : List UserServerGrant

/-- Modelled from the spec: `beginAuthorization(user, server)` persists a
CSRF-bound opaque state token with a short TTL; no token writes yet. -/
def beginAuthorization (db : AuthFlowDB) (userId serverId : Nat) (stateToken : String)
    (now ttl : Nat) : AuthFlowDB :=
  { db with pending :=
      { userId := userId, serverId := serverId, stateToken := stateToken,
        expiresAt := now + ttl } :: db.pending }

/-- Find an unexpired pending state matching the callback's server and
state parameter. -/
def findPending (db : AuthFlowDB) (serverId : Nat) (st : String) (now : Nat) :
    Option PendingState :=
  db.pending.find? (fun p => p.serverId == serverId && p.stateToken == st &&
    decide (now < p.expiresAt))

/-- Modelled from the spec: `handleCallback(server, code, state)`: fails
with `InvalidState` when the state is missing, expired or mismatched; fails
with `ProviderError` when the provider reports an error parameter; on
success consumes the state and persists the grant with vault-encrypted
tokens.  The provider token-endpoint response is passed in as data. -/
def handleCallback (key : Nat) (db : AuthFlowDB) (serverId : Nat)
    (code stateParam errorParam : Option String)
    (providerAccessToken : List Nat) (providerRefreshToken : Option (List Nat))
    (now : Nat) : Except CallbackError Unit × AuthFlowDB :=
  match stateParam with
  | none => (Except.error CallbackError.invalidState, db)
  | some st =>
    match findPending db serverId st now with
    | none => (Except.error CallbackError.invalidState, db)
    | some p =>
      match errorParam with
      | some desc => (Except.error (CallbackError.providerError desc), db)
      | none =>
        match code with
        | none => (Except.error (CallbackError.providerError "missing code"), db)
        | some _ =>
          (Except.ok (),
            { pending := db.pending.filter
                (fun q => !(q.serverId == serverId && q.stateToken == st)),
              grants :=
                { userId := p.userId, serverId := serverId, isAuthorized := true,
                  accessTokenCipher := some (encrypt key providerAccessToken),
                  refreshTokenCipher := providerRefreshToken.map (encrypt key) } ::
                  db.grants.filter
                    (fun g => !(g.userId == p.userId && g.serverId == serverId)) })

/- ============= Temporary Credential Manager (spec 4.6) =============== -/

/-- Modelled from the spec: a User row's credential fields. -/
structure UserRec where
  email : String
  passwordHash : Option String
  mustChangePassword : Bool
  passwordExpiresAt : Option Nat
deriving DecidableEq

/-- Modelled from the spec: the password hash, abstracted as an injective
encoding. -/
def hashPassword (pw : String) : String := pw

/-- The caller-observable response of `requestPasswordReset`. -/
structure ResetResponse where
  ok : Bool
  message : String
deriving DecidableEq

/-- Modelled from the spec: a single-use, time-boxed reset token. -/
structure ResetToken where
  email : String
  token : String
  expiresAt : Nat
deriving DecidableEq

/-- Modelled from the spec: the account store used by the temporary
credential manager. -/
structure AuthDB where
  users : List UserRec
  resetTokens : List ResetToken

/-- Look up an account by email. -/
def findUser (db : AuthDB) (email : String) : Option UserRec :=
  db.users.find? (fun u => u.email == email)

/-- Modelled from the spec: `requestPasswordReset(email)` always reports
success regardless of whether the email exists; when it does exist a
single-use, time-boxed reset token is created out-of-band. -/
def requestPasswordReset (db : AuthDB) (email tok : String) (now ttl : Nat) :
    ResetResponse × AuthDB :=
  let resp : ResetResponse :=
    { ok := true, message := "If the email exists, a password reset link has been sent" }
  match findUser db email with
  | some _ =>
      (resp, { db with resetTokens :=
        { email := email, token := tok, expiresAt := now + ttl } :: db.resetTokens })
  | none => (resp, db)

/-- Embedding of `handleRequestReset` (frontend/src/pages/ForgotPassword.jsx
lines 43-64): the form advances to step 2 both on success and on error,
because the backend always reports success to prevent enumeration. -/
def handleRequestResetStep (requestSucceeded : Bool) : Nat :=
  if requestSucceeded then 2 else 2

/-- The result record of the frontend password-change validator. -/
structure PwValidation where
  isValid : Bool
  error : Option String
deriving DecidableEq

/-- Embedding of `validatePasswordChange` (src/unnamed/part_009 lines
281-318): required fields, match check, length check, distinctness check,
in that order.  JavaScript falsiness of a string is emptiness. -/
def validatePasswordChange (oldPassword newPassword confirmPassword : String) : PwValidation :=
  if oldPassword = "" ∨ newPassword = "" ∨ confirmPassword = "" then
    { isValid := false, error := some "All fields are required" }
  else if newPassword ≠ confirmPassword then
    { isValid := false, error := some "New passwords do not match" }
  else if newPassword.length < 8 then
    { isValid := false, error := some "New password must be at least 8 characters long" }
  else if oldPassword = newPassword then
    { isValid := false, error := some "New password must be different from old password" }
  else
    { isValid := true, error := none }

/-- Modelled from the spec: failure modes of `changePassword`. -/
inductive ChangePasswordError where
  | validationError (msg : String)
  | invalidCredentials
deriving DecidableEq

/-- Modelled from the spec: `changePassword(user, old, new)` requires
`new != old`, `len(new) >= 8` and a correct `old`; on success it clears
`must_change_password` and `password_expires_at`. -/
def changePassword (u : UserRec) (old new : String) : Except ChangePasswordError UserRec :=
  if new = old then
    Except.error (ChangePasswordError.validationError
      "New password must be different from old password")
  else if new.length < 8 then
    Except.error (ChangePasswordError.validationError
      "New password must be at least 8 characters long")
  else if u.passwordHash ≠ some (hashPassword old) then
    Except.error ChangePasswordError.invalidCredentials
  else
    Except.ok { u with
      passwordHash := some (hashPassword new),
      mustChangePassword := false,
      passwordExpiresAt := none }

/- ======== Shared axios API client (frontend/src/lib/api.js) ========== -/

/-- A rejected axios error as the interceptor sees it: the optional HTTP
status of `error.response`, the optional `detail` of its body, the error
message, and the `isEnterpriseFeature` marker (absent on ordinary errors,
hence false). -/
structure ApiError where
  status : Option Nat
  detail : Option String
  message : String
  isEnterpriseFeature : Bool
deriving DecidableEq

/-- The fallback upsell message of the 402 branch (api.js lines 141-143). -/
def defaultEnterpriseMessage : String :=
  "This is an Enterprise Edition feature. Contact support@kenislabs.com or visit kenislabs.com.com for more information."

/-- Embedding of the 402 branch of the response interceptor (api.js lines
140-155): a fresh error carrying the detail message, marked
`isEnterpriseFeature` with status 402.  The back-pointer `originalError`
is not modelled. -/
def mkEnterpriseError (e : ApiError) : ApiError :=
  { status := some 402
    detail := e.detail
    message := e.detail.getD defaultEnterpriseMessage
    isEnterpriseFeature := true }

/-- Embedding of the enterprise-feature recognizer used by `fetchUserTools`
(frontend/src/pages/AdminUsers.jsx lines 100-105):
`error.isEnterpriseFeature || error.status === 402`. -/
def isEnterpriseSignal (e : ApiError) : Bool :=
  e.isEnterpriseFeature || e.status == some 402

/-- Character-list version of JavaScript's `String.prototype.includes`
pattern-at-head test. -/
def startsWithChars : List Char → List Char → Bool
  | _, [] => true
  | [], _ :: _ => false
  | c :: cs, d :: ds => c == d && startsWithChars cs ds

/-- Character-list version of JavaScript's `String.prototype.includes`. -/
def containsChars : List Char → List Char → Bool
  | [], pat => pat.isEmpty
  | c :: cs, pat => startsWithChars (c :: cs) pat || containsChars cs pat

/-- `originalRequest.url?.includes(url)` (api.js lines 163-165). -/
def urlContains (url pat : String) : Bool := containsChars url.data pat.data

/-- The three endpoints the interceptor never refreshes on (api.js lines
158-162). -/
def skipRefreshUrls : List String :=
  ["/api/auth/admin/login", "/api/auth/logout", "/api/auth/refresh"]

/-- Embedding of `shouldSkipRefresh` (api.js lines 163-165). -/
def shouldSkipRefresh (url : String) : Bool :=
  skipRefreshUrls.any (fun u => urlContains url u)

/-- The config of an in-flight axios request: its URL and the `_retry`
marker. -/
structure RequestCfg where
  url : String
  retryFlag : Bool
deriving DecidableEq

/-- What a single invocation of the interceptor's error handler does. -/
inductive InterceptAction where
  | reject (e : ApiError)
  | queueForRefresh
  | refreshThenRetry
deriving DecidableEq

/-- Embedding of the response interceptor's error handler (api.js lines
131-219, the second interceptor definition in the file): 402 is rejected
as an enterprise-feature error before any refresh handling; a 401 on a
request without `_retry` whose URL is not a skip URL is queued when a
refresh is already running, and otherwise marks `_retry` and starts a
refresh; everything else is rejected unchanged. -/
def interceptOnError (isRefreshing : Bool) (req : RequestCfg) (e : ApiError) : InterceptAction :=
  if e.status = some 402 then
    InterceptAction.reject (mkEnterpriseError e)
  else if e.status = some 401 ∧ req.retryFlag = false ∧ shouldSkipRefresh req.url = false then
    if isRefreshing then InterceptAction.queueForRefresh
    else InterceptAction.refreshThenRetry
  else
    InterceptAction.reject e

/-- One request of the client machine: the fields the interceptor reads and
writes, plus counters for the retries and refreshes it has caused, an
in-flight marker and a ghost marker recording that it was ever queued. -/
structure CReq where
  url : String
  retryFlag : Bool
  retries : Nat
  refreshes : Nat
  inFlight : Bool
  rejectedFinal : Bool
  everQueued : Bool
deriving DecidableEq

/-- The shared client state of api.js: the module-level `isRefreshing`
flag, the `refreshSubscribers` queue, the request that started the current
refresh, and the per-request state. -/
structure CState where
  isRefreshing : Bool
  subscribers : List Nat
  refreshInitiator : Option Nat
  reqs : Nat → CReq

/-- Events driving the client machine: a request's response coming back as
401 or as a success, and the outcome of the in-flight refresh call. -/
inductive CEvent where
  | resp401 (rid : Nat)
  | respOk (rid : Nat)
  | refreshOk
  | refreshFail
deriving DecidableEq

/-- Replace one request's state. -/
def setReq (s : CState) (rid : Nat) (r : CReq) : CState :=
  { s with reqs := fun n => if n = rid then r else s.reqs n }

/-- Re-send a request (`api(originalRequest)`), counting the retry. -/
def retryReq (s : CState) (rid : Nat) : CState :=
  setReq s rid
    { s.reqs rid with retries := (s.reqs rid).retries + 1, inFlight := true }

/-- Embedding of the interceptor's 401/refresh protocol (api.js lines
157-218) as one transition of the client machine.
A 401 on a skip URL or on a request already marked `_retry` falls through
to `Promise.reject` (line 217).  A 401 while a refresh is running queues
the request (lines 173-180) WITHOUT setting `_retry`.  Otherwise the
request sets `_retry`, raises `isRefreshing` and starts the refresh
(lines 182-187).  When the refresh succeeds, `isRefreshing` drops, every
subscriber is re-sent and the initiating request is re-sent (lines
195-200).  When the refresh fails, subscribers are discarded and the
initiating request is rejected with the refresh error (lines 201-213). -/
def clientStep (s : CState) (e : CEvent) : CState :=
  match e with
  | CEvent.resp401 rid =>
    let r := s.reqs rid
    if r.inFlight = false then s
    else if shouldSkipRefresh r.url || r.retryFlag then
      setReq s rid { r with inFlight := false, rejectedFinal := true }
    else if s.isRefreshing then
      { setReq s rid { r with inFlight := false, everQueued := true } with
          subscribers := rid :: s.subscribers }
    else
      { setReq s rid { r with inFlight := false, retryFlag := true, refreshes := r.refreshes + 1 } with
          isRefreshing := true, refreshInitiator := some rid }
  | CEvent.respOk rid =>
    let r := s.reqs rid
    if r.inFlight then setReq s rid { r with inFlight := false } else s
  | CEvent.refreshOk =>
    if s.isRefreshing then
      let subs := s.subscribers
      let ini := s.refreshInitiator
      let s1 : CState :=
        { s with isRefreshing := false, subscribers := [], refreshInitiator := none }
      let s2 := subs.foldl retryReq s1
      match ini with
      | some rid => retryReq s2 rid
      | none => s2
    else s
  | CEvent.refreshFail =>
    if s.isRefreshing then
      let s1 : CState :=
        { s with isRefreshing := false, subscribers := [], refreshInitiator := none }
      match s.refreshInitiator with
      | some rid => setReq s1 rid { s1.reqs rid with rejectedFinal := true }
      | none => s1
    else s

/-- Run the client machine over a sequence of events. -/
def runClient (s : CState) (evs : List CEvent) : CState :=
  evs.foldl clientStep s

/-- A freshly issued request on a URL. -/
def initReq (url : String) : CReq :=
  { url := url, retryFlag := false, retries := 0, refreshes := 0,
    inFlight := true, rejectedFinal := false, everQueued := false }

/-- A well-formed starting state: no refresh running, empty queue, and all
requests fresh. -/
def WfInit (s : CState) : Prop :=
  s.isRefreshing = false ∧ s.subscribers = [] ∧ s.refreshInitiator = none ∧
    ∀ rid, (s.reqs rid).retryFlag = false ∧ (s.reqs rid).retries = 0 ∧
      (s.reqs rid).refreshes = 0 ∧ (s.reqs rid).everQueued = false

/-- Invariant of the client machine: the queue and initiator exist only
while a refresh is running, queued requests are marked and never on skip
URLs, the initiating request carries `_retry` and had no prior retries
unless it was queued, refreshes are guarded by `_retry` and bounded by
one, retries of never-queued requests are bounded by one, and skip-URL
requests are never touched. -/
structure ClientInv (s : CState) : Prop where
  refreshing_none : s.isRefreshing = false → s.refreshInitiator = none ∧ s.subscribers = []
  subs_queued : ∀ rid ∈ s.subscribers,
    (s.reqs rid).everQueued = true ∧ shouldSkipRefresh (s.reqs rid).url = false
  initiator_inv : ∀ rid, s.refreshInitiator = some rid →
    (s.reqs rid).retryFlag = true ∧ shouldSkipRefresh (s.reqs rid).url = false ∧
    ((s.reqs rid).everQueued = false → (s.reqs rid).retries = 0)
  flag_refreshes : ∀ rid, (s.reqs rid).retryFlag = false → (s.reqs rid).refreshes = 0
  refreshes_le : ∀ rid, (s.reqs rid).refreshes ≤ 1
  unqueued_retries : ∀ rid, (s.reqs rid).everQueued = false →
    ((s.reqs rid).retryFlag = false → (s.reqs rid).retries = 0) ∧ (s.reqs rid).retries ≤ 1
  skip_untouched : ∀ rid, shouldSkipRefresh (s.reqs rid).url = true →
    (s.reqs rid).retryFlag = false ∧ (s.reqs rid).retries = 0 ∧
    (s.reqs rid).refreshes = 0 ∧ (s.reqs rid).everQueued = false

/-- Two concurrent admin requests, both in flight. -/
def twoReqInit : CState :=
  { isRefreshing := false, subscribers := [], refreshInitiator := none,
    reqs := fun n =>
      if n = 0 then initReq "/api/admin/users"
      else if n = 1 then initReq "/api/admin/organization/tools"
      else { initReq "/unused" with inFlight := false } }

/-- Request 0's 401 starts a refresh; request 1's 401 arrives while that
refresh runs and is queued; the refresh succeeds and both are re-sent;
request 1 (still without `_retry`) gets another 401 and starts a second
refresh, after which it is re-sent a second time. -/
def queuedRetryScript : List CEvent :=
  [CEvent.resp401 0, CEvent.resp401 1, CEvent.refreshOk,
   CEvent.resp401 1, CEvent.refreshOk]

/- ============================ Theorems =============================== -/

theorem byte_roundtrip (key b : Nat) (hb : b < 256) :
    ((b + key) % 256 + (256 - key % 256)) % 256 = b := by omega

theorem decrypt_encrypt_ok (key : Nat) (s : List Nat) (hbytes : ∀ b ∈ s, b < 256) :
    decrypt key (encrypt key s) = Except.ok s := by
  have h : ∀ t : List Nat, (∀ b ∈ t, b < 256) →
      t.map ((fun b => (b + (256 - key % 256)) % 256) ∘ fun b => (b + key) % 256) = t := by
    intro t ht
    induction t with
    | nil => rfl
    | cons a t ih =>
      simp only [List.map_cons, Function.comp_apply]
      rw [byte_roundtrip key a (ht a (by simp)),
        ih (fun b hb => ht b (by simp [hb]))]
  simp only [decrypt, encrypt, List.map_map]
  rw [if_true]
  exact congrArg Except.ok (h s hbytes)

/-- C5: the credential vault round-trips every byte string of length at
most 4096 (`decrypt(encrypt(s)) = s` under the process-wide key), and
decryption under a mismatched key fails deterministically with
`DecryptionError` instead of returning corrupted plaintext. -/
theorem c5_vault_roundtrip (key key2 : Nat) (s : List Nat)
    (hlen : s.length ≤ 4096) (hbytes : ∀ b ∈ s, b < 256) :
    decrypt key (encrypt key s) = Except.ok s ∧
    (key2 ≠ key → decrypt key2 (encrypt key s) = Except.error DecryptionError.keyMismatch) := by
  refine ⟨decrypt_encrypt_ok key s hbytes, fun hne => ?_⟩
  simp [decrypt, encrypt, Ne.symm hne]

/-- Witness for C5 at the byte string [0, 255, 128] with keys 5 and 6. -/
theorem c5_vault_roundtrip_witness :
    decrypt 5 (encrypt 5 [0, 255, 128]) = Except.ok [0, 255, 128] ∧
    decrypt 6 (encrypt 5 [0, 255, 128]) = Except.error DecryptionError.keyMismatch :=
  ⟨(c5_vault_roundtrip 5 6 [0, 255, 128] (by decide) (by decide)).1,
   (c5_vault_roundtrip 5 6 [0, 255, 128] (by decide) (by decide)).2 (by decide)⟩

theorem lookupOverride_set (db : PermDB) (u t : Nat) (v : Bool) :
    lookupOverride (setUserOverride db u t v) u t = some v := by
  simp [lookupOverride, setUserOverride]

theorem find?_over_cleared (l : List (Nat × Nat × Bool)) (u t : Nat) :
    (l.filter (fun r => !(r.1 == u && r.2.1 == t))).find?
      (fun r => r.1 == u && r.2.1 == t) = none := by
  rw [List.find?_eq_none]
  intro x hx
  have hq := (List.mem_filter.mp hx).2
  simp only [Bool.not_eq_true'] at hq
  simp [hq]

theorem lookupOverride_clear (db : PermDB) (u t : Nat) :
    lookupOverride (clearUserOverride db u t) u t = none := by
  unfold lookupOverride clearUserOverride
  rw [find?_over_cleared]
  rfl

/-- C1: the effective access decision is false whenever the org flag is
false (an override of enabled=true cannot re-enable an org-disabled tool),
equals the override row's value when one exists and the org flag is true,
and defaults to true otherwise; the frontend's local update in
`toggleUserTool` computes the same decision. -/
theorem c1_effective_access (db : PermDB) (u t : Nat) :
    (db.orgEnabled t = false → effectiveAccess db u t = false) ∧
    (∀ b, lookupOverride db u t = some b → db.orgEnabled t = true →
      effectiveAccess db u t = b) ∧
    (lookupOverride db u t = none → db.orgEnabled t = true →
      effectiveAccess db u t = true) ∧
    (∀ v, effectiveAccess (setUserOverride db u t v) u t =
      if db.orgEnabled t then v else false) ∧
    (db.orgEnabled t = false →
      effectiveAccess (setUserOverride db u t true) u t = false) ∧
    (∀ (row : UserToolRow) (cur : Bool), row.tool_id = t →
      row.org_enabled = db.orgEnabled t →
      (toggleUserToolUpdate [row] t cur).map (fun r => r.effective_access) =
        [effectiveAccess (setUserOverride db u t (!cur)) u t]) := by
  have h4 : ∀ v : Bool, effectiveAccess (setUserOverride db u t v) u t =
      if db.orgEnabled t then v else false := by
    intro v
    unfold effectiveAccess
    rw [lookupOverride_set]
    cases horg : db.orgEnabled t <;> simp [setUserOverride, horg]
  refine ⟨?_, ?_, ?_, h4, ?_, ?_⟩
  · intro h; simp [effectiveAccess, h]
  · intro b hb h; simp [effectiveAccess, h, hb]
  · intro hnone h; simp [effectiveAccess, h, hnone]
  · intro h; rw [h4 true]; simp [h]
  · intro row cur ht horg
    rw [h4 (!cur)]
    simp only [toggleUserToolUpdate, List.map_cons, List.map_nil, if_pos ht]
    rw [horg]

/-- Witness for C1: with the org flag false and an explicit enabled=true
override, the effective decision stays false. -/
theorem c1_effective_access_witness :
    effectiveAccess (setUserOverride ⟨fun _ => false, []⟩ 1 2 true) 1 2 = false :=
  (c1_effective_access ⟨fun _ => false, []⟩ 1 2).2.2.2.2.1 rfl

/-- C3: deleting the override row reverts the effective decision to the
organization default, independent of the prior override value, and the
frontend's local update in `removeUserOverride` computes the same
reverted decision. -/
theorem c3_clear_override_reverts (db : PermDB) (u t : Nat) :
    lookupOverride (clearUserOverride db u t) u t = none ∧
    effectiveAccess (clearUserOverride db u t) u t = db.orgEnabled t ∧
    (∀ prior : Bool,
      effectiveAccess (clearUserOverride (setUserOverride db u t prior) u t) u t =
        db.orgEnabled t) ∧
    (∀ (row : UserToolRow), row.tool_id = t → row.org_enabled = db.orgEnabled t →
      (removeUserOverrideUpdate [row] t).map (fun r => r.effective_access) =
        [effectiveAccess (clearUserOverride db u t) u t]) := by
  have hmain : ∀ db2 : PermDB,
      effectiveAccess (clearUserOverride db2 u t) u t = db2.orgEnabled t := by
    intro db2
    simp only [effectiveAccess, lookupOverride_clear]
    cases h : db2.orgEnabled t <;> simp [clearUserOverride, h]
  refine ⟨lookupOverride_clear db u t, hmain db, ?_, ?_⟩
  · intro prior; exact hmain (setUserOverride db u t prior)
  · intro row ht horg
    simp only [removeUserOverrideUpdate, List.map_cons, List.map_nil, if_pos ht]
    rw [hmain db, horg]

/-- Witness for C3: after setting an override of false and clearing it,
access reverts to the org default true; the frontend row update agrees. -/
theorem c3_clear_override_reverts_witness :
    effectiveAccess (clearUserOverride (setUserOverride ⟨fun _ => true, []⟩ 1 2 false) 1 2)
      1 2 = true ∧
    (removeUserOverrideUpdate [⟨2, true, some false, false⟩] 2).map
      (fun r => r.effective_access) =
      [effectiveAccess (clearUserOverride ⟨fun _ => true, []⟩ 1 2) 1 2] :=
  ⟨(c3_clear_override_reverts ⟨fun _ => true, []⟩ 1 2).2.2.1 false,
   (c3_clear_override_reverts ⟨fun _ => true, []⟩ 1 2).2.2.2 ⟨2, true, some false, false⟩
     rfl rfl⟩

theorem revokeIfActive_tokenHash (u : Nat) (tk : MCPAccessToken) :
    (revokeIfActive u tk).tokenHash = tk.tokenHash := by
  unfold revokeIfActive; split <;> rfl

theorem filter_active_map_revoke (u : Nat) (l : List MCPAccessToken) :
    (l.map (revokeIfActive u)).filter (fun tk => tk.userId == u && !tk.revoked) = [] := by
  induction l with
  | nil => rfl
  | cons tk t ih =>
    simp only [List.map_cons, List.filter_cons]
    cases hcond : (tk.userId == u && !tk.revoked) with
    | true => simp [revokeIfActive, hcond, ih]
    | false => simp [revokeIfActive, hcond, ih]

/-- C2: issuing a token leaves the user with exactly one active token
(every prior active token of that user is revoked), the fresh token
validates to the user, and after a second `issue` for the same user the
first token no longer validates. -/
theorem c2_single_active_token (db : TokenDB) (u p1 p2 : Nat)
    (hfresh : ∀ tk ∈ db.tokens, tk.tokenHash ≠ hashToken p1) (hne : p1 ≠ p2) :
    validate (issue db u p1) p1 = some u ∧
    (activeTokens (issue db u p1) u).length = 1 ∧
    validate (issue (issue db u p1) u p2) p1 = none := by
  refine ⟨?_, ?_, ?_⟩
  · simp [validate, issue]
  · simp only [activeTokens, issue, List.filter_cons]
    simp [filter_active_map_revoke]
  · have hnone : (issue (issue db u p1) u p2).tokens.find?
        (fun tk => tk.tokenHash == hashToken p1 && !tk.revoked) = none := by
      rw [List.find?_eq_none]
      intro x hx
      simp only [issue, List.mem_cons, List.mem_map] at hx
      rcases hx with hx | ⟨y, hy, rfl⟩
      · subst hx
        simp [hashToken, Ne.symm hne]
      · rcases hy with hy | ⟨z, hz, rfl⟩
        · subst hy
          simp [revokeIfActive, hashToken]
        · have hhash : ((revokeIfActive u (revokeIfActive u z)).tokenHash == hashToken p1) = false := by
            rw [revokeIfActive_tokenHash, revokeIfActive_tokenHash]
            exact beq_eq_false_iff_ne.mpr (hfresh z hz)
          simp [hhash]
    simp [validate, hnone]

/-- Witness for C2: starting from an empty store, issuing token 10 and then
token 11 for user 7 leaves token 10 invalid while the store held one
active token for user 7 after the first issue. -/
theorem c2_single_active_token_witness :
    validate (issue ⟨[], 0⟩ 7 10) 10 = some 7 ∧
    validate (issue (issue ⟨[], 0⟩ 7 10) 7 11) 10 = none :=
  ⟨(c2_single_active_token ⟨[], 0⟩ 7 10 11 (by simp) (by decide)).1,
   (c2_single_active_token ⟨[], 0⟩ 7 10 11 (by simp) (by decide)).2.2⟩

theorem lastFour_eq_nil_iff (s : List Nat) : lastFour s = [] ↔ s = [] := by
  unfold lastFour
  constructor
  · intro h
    have hle := List.drop_eq_nil_iff.mp h
    have hlen0 : s.length = 0 := by omega
    exact List.eq_nil_of_length_eq_zero hlen0
  · intro h; subst h; rfl

/-- C4: an update request that omits `client_secret` leaves the stored
ciphertext and its timestamp unchanged (and the frontend payload builders
omit the field unless a fresh secret was typed), and reads expose only the
last-four hint, a configured flag and the timestamp: two stored secrets
agreeing on their last four bytes produce identical read views. -/
theorem c4_secret_write_only (key now : Nat) (cfg : OAuthProviderConfig)
    (req : ProviderUpdateRequest) :
    (req.clientSecret = none →
      (updateProviderConfig key cfg req now).clientSecretCipher = cfg.clientSecretCipher ∧
      (updateProviderConfig key cfg req now).secretUpdatedAt = cfg.secretUpdatedAt) ∧
    (∀ ns : String, buildCredentialsSecret false ns = none) ∧
    (∀ mode : Bool, buildCredentialsSecret mode "" = none) ∧
    updateFormSecret "" = none ∧
    (∀ s1 s2 : List Nat, (∀ b ∈ s1, b < 256) → (∀ b ∈ s2, b < 256) →
      lastFour s1 = lastFour s2 →
      readProviderConfig key (storeSecret key cfg s1 now) =
        readProviderConfig key (storeSecret key cfg s2 now)) := by
  refine ⟨?_, ?_, ?_, rfl, ?_⟩
  · intro h
    constructor <;> simp [updateProviderConfig, h]
  · intro ns; simp [buildCredentialsSecret]
  · intro mode; simp [buildCredentialsSecret, trimTruthy]
  · intro s1 s2 h1 h2 hhint
    have e1 := decrypt_encrypt_ok key s1 h1
    have e2 := decrypt_encrypt_ok key s2 h2
    have hnil : (s1 = []) ↔ (s2 = []) := by
      constructor
      · intro h; subst h
        exact (lastFour_eq_nil_iff s2).mp hhint.symm
      · intro h; subst h
        exact (lastFour_eq_nil_iff s1).mp hhint
    have hconf : (encrypt key s1).payload.isEmpty = (encrypt key s2).payload.isEmpty := by
      cases hs1 : s1 <;> cases hs2 : s2 <;> simp_all [encrypt]
    simp [readProviderConfig, storeSecret, e1, e2, hhint, hconf, Except.toOption]

/-- Witness for C4 on a concrete configuration: omitting the secret keeps
the ciphertext, and two secrets sharing their last four bytes read back
identically. -/
theorem c4_secret_write_only_witness :
    (updateProviderConfig 5
      ⟨"github", "cid", ⟨5, [1, 2, 3]⟩, "https://cb", "https://auth", "https://tok", ["repo"], 0⟩
      ⟨"github", "cid2", none, "https://cb", "https://auth", "https://tok", ["repo"]⟩
      99).clientSecretCipher = ⟨5, [1, 2, 3]⟩ ∧
    readProviderConfig 5
      (storeSecret 5
        ⟨"github", "cid", ⟨5, [1, 2, 3]⟩, "https://cb", "https://auth", "https://tok", ["repo"], 0⟩
        [1, 2, 3, 4, 5] 99) =
      readProviderConfig 5
        (storeSecret 5
          ⟨"github", "cid", ⟨5, [1, 2, 3]⟩, "https://cb", "https://auth", "https://tok", ["repo"], 0⟩
          [9, 2, 3, 4, 5] 99) :=
  ⟨((c4_secret_write_only 5 99
      ⟨"github", "cid", ⟨5, [1, 2, 3]⟩, "https://cb", "https://auth", "https://tok", ["repo"], 0⟩
      ⟨"github", "cid2", none, "https://cb", "https://auth", "https://tok", ["repo"]⟩).1 rfl).1,
   (c4_secret_write_only 5 99
      ⟨"github", "cid", ⟨5, [1, 2, 3]⟩, "https://cb", "https://auth", "https://tok", ["repo"], 0⟩
      ⟨"github", "cid2", none, "https://cb", "https://auth", "https://tok", ["repo"]⟩).2.2.2.2
      [1, 2, 3, 4, 5] [9, 2, 3, 4, 5] (by decide) (by decide) (by decide)⟩

/-- C6: a callback whose state parameter is missing, or matches no
unexpired pending state issued for that server, fails with `InvalidState`
and writes no `UserServerGrant` (the flow-engine state is untouched). -/
theorem c6_invalid_state_rejected (key : Nat) (db : AuthFlowDB) (serverId : Nat)
    (code stateParam errorParam : Option String)
    (tok : List Nat) (rtok : Option (List Nat)) (now : Nat)
    (hbad : stateParam = none ∨
      ∃ st, stateParam = some st ∧ findPending db serverId st now = none) :
    (handleCallback key db serverId code stateParam errorParam tok rtok now).1 =
      Except.error CallbackError.invalidState ∧
    (handleCallback key db serverId code stateParam errorParam tok rtok now).2.grants =
      db.grants ∧
    (handleCallback key db serverId code stateParam errorParam tok rtok now).2.pending =
      db.pending := by
  rcases hbad with h | ⟨st, hst, hnone⟩
  · subst h; exact ⟨rfl, rfl, rfl⟩
  · subst hst
    simp [handleCallback, hnone]

/-- Witness for C6: a callback carrying a state value that was never
issued (empty pending store) is rejected and writes nothing. -/
theorem c6_invalid_state_rejected_witness :
    (handleCallback 5 ⟨[], []⟩ 1 (some "code") (some "forged") none [1] none 10).1 =
      Except.error CallbackError.invalidState ∧
    (handleCallback 5 ⟨[], []⟩ 1 (some "code") (some "forged") none [1] none 10).2.grants =
      [] :=
  ⟨(c6_invalid_state_rejected 5 ⟨[], []⟩ 1 (some "code") (some "forged") none [1] none 10
      (Or.inr ⟨"forged", rfl, rfl⟩)).1,
   (c6_invalid_state_rejected 5 ⟨[], []⟩ 1 (some "code") (some "forged") none [1] none 10
      (Or.inr ⟨"forged", rfl, rfl⟩)).2.1⟩

/-- C7: `requestPasswordReset` returns the same success response whether or
not the email has an account, and the frontend advances to the reset step
on both outcomes. -/
theorem c7_reset_enumeration_resistant (db : AuthDB) (e1 e2 tok : String) (now ttl : Nat) :
    (requestPasswordReset db e1 tok now ttl).1 = (requestPasswordReset db e2 tok now ttl).1 ∧
    (requestPasswordReset db e1 tok now ttl).1.ok = true ∧
    handleRequestResetStep true = handleRequestResetStep false := by
  refine ⟨?_, ?_, rfl⟩
  · cases h1 : findUser db e1 <;> cases h2 : findUser db e2 <;>
      simp [requestPasswordReset, h1, h2]
  · cases h1 : findUser db e1 <;> simp [requestPasswordReset, h1]

/-- Witness for C7: a store holding only a@b.com responds identically for
a@b.com (exists) and for nobody@b.com (does not exist). -/
theorem c7_reset_enumeration_resistant_witness :
    (requestPasswordReset ⟨[⟨"a@b.com", some "h", false, none⟩], []⟩ "a@b.com" "tk" 0 600).1 =
      (requestPasswordReset ⟨[⟨"a@b.com", some "h", false, none⟩], []⟩ "nobody@b.com" "tk" 0 600).1 :=
  (c7_reset_enumeration_resistant ⟨[⟨"a@b.com", some "h", false, none⟩], []⟩
    "a@b.com" "nobody@b.com" "tk" 0 600).1

/-- C8: `changePassword` succeeds exactly when the new password differs
from the old, has length at least 8, and the old password is correct;
violations of the two syntactic rules yield a validation error; success
clears `must_change_password` and `password_expires_at`; the frontend
validator embedded from the sources accepts only inputs satisfying the
same two syntactic rules. -/
theorem c8_change_password (u : UserRec) (old np conf : String) :
    ((∃ u2, changePassword u old np = Except.ok u2) ↔
      (np ≠ old ∧ 8 ≤ np.length ∧ u.passwordHash = some (hashPassword old))) ∧
    ((np = old ∨ np.length < 8) →
      ∃ m, changePassword u old np = Except.error (ChangePasswordError.validationError m)) ∧
    (∀ u2, changePassword u old np = Except.ok u2 →
      u2.mustChangePassword = false ∧ u2.passwordExpiresAt = none) ∧
    ((validatePasswordChange old np conf).isValid = true →
      np ≠ old ∧ 8 ≤ np.length ∧ conf = np) := by
  refine ⟨?_, ?_, ?_, ?_⟩
  · unfold changePassword
    split_ifs with h1 h2 h3
    · simp [h1]
    · constructor
      · rintro ⟨u2, hu2⟩; cases hu2
      · rintro ⟨hne, hlen, hh⟩; omega
    · constructor
      · rintro ⟨u2, hu2⟩; cases hu2
      · rintro ⟨hne, hlen, hh⟩; exact absurd hh h3
    · constructor
      · rintro ⟨u2, hu2⟩
        refine ⟨h1, by omega, ?_⟩
        by_contra hcon
        exact h3 hcon
      · intro h; exact ⟨_, rfl⟩
  · intro h
    unfold changePassword
    rcases h with h | h
    · simp [h]
    · split_ifs with h1
      · exact ⟨_, rfl⟩
      · exact ⟨_, rfl⟩
  · intro u2 hu2
    unfold changePassword at hu2
    split_ifs at hu2 <;> cases hu2
    exact ⟨rfl, rfl⟩
  · intro hv
    unfold validatePasswordChange at hv
    split_ifs at hv with h1 h2 h3 h4
    have hconf : conf = np := by
      by_contra hc
      exact h2 (fun he => hc he.symm)
    refine ⟨fun he => h4 he.symm, by omega, hconf⟩

/-- Witness for C8: a correct old password with a fresh 11-character new
password succeeds and clears the forced-rotation fields; the frontend
validator accepts the same input. -/
theorem c8_change_password_witness :
    (∃ u2, changePassword ⟨"a@b.com", some (hashPassword "oldpass-123"), true, some 42⟩
      "oldpass-123" "newpass-456" = Except.ok u2) ∧
    (∃ m, changePassword ⟨"a@b.com", some (hashPassword "oldpass-123"), true, some 42⟩
      "oldpass-123" "short" = Except.error (ChangePasswordError.validationError m)) ∧
    ("newpass-456" ≠ "oldpass-123" ∧ 8 ≤ "newpass-456".length ∧
      "newpass-456" = "newpass-456") :=
  ⟨(c8_change_password ⟨"a@b.com", some (hashPassword "oldpass-123"), true, some 42⟩
      "oldpass-123" "newpass-456" "newpass-456").1.mpr
      ⟨by decide, by decide, rfl⟩,
   (c8_change_password ⟨"a@b.com", some (hashPassword "oldpass-123"), true, some 42⟩
      "oldpass-123" "short" "short").2.1 (Or.inr (by decide)),
   (c8_change_password ⟨"a@b.com", some (hashPassword "oldpass-123"), true, some 42⟩
      "oldpass-123" "newpass-456" "newpass-456").2.2.2 (by decide)⟩

/-- C9: a 402 response is rejected by the interceptor as a distinct
enterprise-feature error (`isEnterpriseFeature` set, status 402) that the
frontend recognizer accepts, it never enters the 401 refresh or queue
path, and a generic error rejected by the interceptor is never mistaken
for the enterprise signal. -/
theorem c9_enterprise_signal (isRefreshing : Bool) (req : RequestCfg) (e : ApiError) :
    (e.status = some 402 →
      interceptOnError isRefreshing req e = InterceptAction.reject (mkEnterpriseError e) ∧
      (mkEnterpriseError e).isEnterpriseFeature = true ∧
      (mkEnterpriseError e).status = some 402 ∧
      isEnterpriseSignal (mkEnterpriseError e) = true) ∧
    (e.status ≠ some 402 → e.isEnterpriseFeature = false →
      ∀ e2, interceptOnError isRefreshing req e = InterceptAction.reject e2 →
        isEnterpriseSignal e2 = false) := by
  constructor
  · intro h
    refine ⟨?_, rfl, rfl, ?_⟩
    · simp [interceptOnError, h]
    · simp [isEnterpriseSignal, mkEnterpriseError]
  · intro h402 hflag e2 hrej
    unfold interceptOnError at hrej
    split_ifs at hrej with h1 h2 h3 <;>
      first
        | exact absurd h1 h402
        | (cases hrej; simp [isEnterpriseSignal, hflag, beq_iff_eq, h402])

/-- Witness for C9: a concrete 402 response is turned into the recognized
enterprise signal, and a concrete 500 is not. -/
theorem c9_enterprise_signal_witness :
    interceptOnError false ⟨"/api/admin/users", false⟩
        ⟨some 402, some "Enterprise only", "err", false⟩ =
      InterceptAction.reject
        (mkEnterpriseError ⟨some 402, some "Enterprise only", "err", false⟩) ∧
    isEnterpriseSignal (mkEnterpriseError ⟨some 402, some "Enterprise only", "err", false⟩) =
      true ∧
    isEnterpriseSignal ⟨some 500, none, "boom", false⟩ = false :=
  ⟨((c9_enterprise_signal false ⟨"/api/admin/users", false⟩
      ⟨some 402, some "Enterprise only", "err", false⟩).1 rfl).1,
   ((c9_enterprise_signal false ⟨"/api/admin/users", false⟩
      ⟨some 402, some "Enterprise only", "err", false⟩).1 rfl).2.2.2,
   (c9_enterprise_signal false ⟨"/api/admin/users", false⟩
      ⟨some 500, none, "boom", false⟩).2 (by decide) rfl
      ⟨some 500, none, "boom", false⟩ (by decide)⟩

theorem setReq_reqs_self (s : CState) (rid : Nat) (r : CReq) :
    (setReq s rid r).reqs rid = r := by
  simp [setReq]

theorem setReq_reqs_ne (s : CState) (rid n : Nat) (r : CReq) (h : n ≠ rid) :
    (setReq s rid r).reqs n = s.reqs n := by
  simp [setReq, h]

theorem clientStep_resp401_stale (s : CState) (rid : Nat)
    (hin : (s.reqs rid).inFlight = false) :
    clientStep s (CEvent.resp401 rid) = s := by
  simp [clientStep, hin]

theorem clientStep_resp401_reject (s : CState) (rid : Nat)
    (hin : (s.reqs rid).inFlight = true)
    (hcond : (shouldSkipRefresh (s.reqs rid).url || (s.reqs rid).retryFlag) = true) :
    clientStep s (CEvent.resp401 rid) =
      setReq s rid { s.reqs rid with inFlight := false, rejectedFinal := true } := by
  simp [clientStep, hin, hcond]

theorem clientStep_resp401_queue (s : CState) (rid : Nat)
    (hin : (s.reqs rid).inFlight = true)
    (hcond : (shouldSkipRefresh (s.reqs rid).url || (s.reqs rid).retryFlag) = false)
    (hr : s.isRefreshing = true) :
    clientStep s (CEvent.resp401 rid) =
      { setReq s rid { s.reqs rid with inFlight := false, everQueued := true } with
          subscribers := rid :: s.subscribers } := by
  simp [clientStep, hin, hcond, hr]

theorem clientStep_resp401_start (s : CState) (rid : Nat)
    (hin : (s.reqs rid).inFlight = true)
    (hcond : (shouldSkipRefresh (s.reqs rid).url || (s.reqs rid).retryFlag) = false)
    (hr : s.isRefreshing = false) :
    clientStep s (CEvent.resp401 rid) =
      { setReq s rid
          { s.reqs rid with
              inFlight := false, retryFlag := true,
              refreshes := (s.reqs rid).refreshes + 1 } with
          isRefreshing := true, refreshInitiator := some rid } := by
  simp [clientStep, hin, hcond, hr]

theorem clientStep_respOk_cases (s : CState) (rid : Nat) :
    clientStep s (CEvent.respOk rid) =
      (if (s.reqs rid).inFlight then setReq s rid { s.reqs rid with inFlight := false }
       else s) := by
  simp [clientStep]

theorem clientStep_refreshOk_run (s : CState) (hr : s.isRefreshing = true) :
    clientStep s CEvent.refreshOk =
      (match s.refreshInitiator with
       | some rid => retryReq (s.subscribers.foldl retryReq
           { s with isRefreshing := false, subscribers := [], refreshInitiator := none }) rid
       | none => s.subscribers.foldl retryReq
           { s with isRefreshing := false, subscribers := [], refreshInitiator := none }) := by
  simp [clientStep, hr]

theorem clientStep_refreshFail_run (s : CState) (hr : s.isRefreshing = true) :
    clientStep s CEvent.refreshFail =
      (match s.refreshInitiator with
       | some rid =>
         setReq { s with isRefreshing := false, subscribers := [], refreshInitiator := none }
           rid { s.reqs rid with rejectedFinal := true }
       | none => { s with isRefreshing := false, subscribers := [], refreshInitiator := none }) := by
  simp [clientStep, hr]

theorem clientStep_refresh_idle (s : CState) (hr : s.isRefreshing = false) :
    clientStep s CEvent.refreshOk = s ∧ clientStep s CEvent.refreshFail = s := by
  constructor <;> simp [clientStep, hr]

theorem retryReq_fields (s : CState) (a n : Nat) :
    ((retryReq s a).reqs n).retryFlag = (s.reqs n).retryFlag ∧
    ((retryReq s a).reqs n).refreshes = (s.reqs n).refreshes ∧
    ((retryReq s a).reqs n).everQueued = (s.reqs n).everQueued ∧
    ((retryReq s a).reqs n).url = (s.reqs n).url := by
  unfold retryReq setReq
  by_cases h : n = a <;> simp [h]

theorem foldl_retry_misc (subs : List Nat) (s : CState) :
    (subs.foldl retryReq s).isRefreshing = s.isRefreshing ∧
    (subs.foldl retryReq s).subscribers = s.subscribers ∧
    (subs.foldl retryReq s).refreshInitiator = s.refreshInitiator := by
  induction subs generalizing s with
  | nil => exact ⟨rfl, rfl, rfl⟩
  | cons a t ih =>
    rw [List.foldl_cons]
    exact ih (retryReq s a)

theorem foldl_retry_fields (subs : List Nat) (s : CState) (n : Nat) :
    ((subs.foldl retryReq s).reqs n).retryFlag = (s.reqs n).retryFlag ∧
    ((subs.foldl retryReq s).reqs n).refreshes = (s.reqs n).refreshes ∧
    ((subs.foldl retryReq s).reqs n).everQueued = (s.reqs n).everQueued ∧
    ((subs.foldl retryReq s).reqs n).url = (s.reqs n).url := by
  induction subs generalizing s with
  | nil => exact ⟨rfl, rfl, rfl, rfl⟩
  | cons a t ih =>
    rw [List.foldl_cons]
    obtain ⟨i1, i2, i3, i4⟩ := ih (retryReq s a)
    obtain ⟨r1, r2, r3, r4⟩ := retryReq_fields s a n
    exact ⟨i1.trans r1, i2.trans r2, i3.trans r3, i4.trans r4⟩

theorem foldl_retry_retries_not_mem (subs : List Nat) (s : CState) (n : Nat)
    (hn : n ∉ subs) :
    ((subs.foldl retryReq s).reqs n).retries = (s.reqs n).retries := by
  induction subs generalizing s with
  | nil => rfl
  | cons a t ih =>
    rw [List.foldl_cons]
    have hna : n ≠ a := by intro h; exact hn (by simp [h])
    have hnt : n ∉ t := by intro h; exact hn (by simp [h])
    rw [ih (retryReq s a) hnt]
    unfold retryReq
    rw [setReq_reqs_ne _ _ _ _ hna]

theorem retryReq_retries_self (s : CState) (a : Nat) :
    ((retryReq s a).reqs a).retries = (s.reqs a).retries + 1 := by
  unfold retryReq
  rw [setReq_reqs_self]

theorem ClientInv_setReq_frame (s : CState) (rid : Nat) (r : CReq) (h : ClientInv s)
    (h1 : r.retryFlag = (s.reqs rid).retryFlag)
    (h2 : r.retries = (s.reqs rid).retries)
    (h3 : r.refreshes = (s.reqs rid).refreshes)
    (h4 : r.everQueued = (s.reqs rid).everQueued)
    (h5 : r.url = (s.reqs rid).url) :
    ClientInv (setReq s rid r) := by
  obtain ⟨hRN, hSubs, hIni, hFR, hRle, hUR, hSkip⟩ := h
  refine ⟨hRN, ?_, ?_, ?_, ?_, ?_, ?_⟩
  · intro n hn
    by_cases hn2 : n = rid
    · subst hn2
      rw [setReq_reqs_self, h4, h5]
      exact hSubs n hn
    · rw [setReq_reqs_ne _ _ _ _ hn2]
      exact hSubs n hn
  · intro n hini
    by_cases hn2 : n = rid
    · subst hn2
      rw [setReq_reqs_self, h1, h2, h4, h5]
      exact hIni n hini
    · rw [setReq_reqs_ne _ _ _ _ hn2]
      exact hIni n hini
  · intro n hf
    by_cases hn2 : n = rid
    · subst hn2
      rw [setReq_reqs_self, h1] at hf
      rw [setReq_reqs_self, h3]
      exact hFR n hf
    · rw [setReq_reqs_ne _ _ _ _ hn2] at hf
      rw [setReq_reqs_ne _ _ _ _ hn2]
      exact hFR n hf
  · intro n
    by_cases hn2 : n = rid
    · subst hn2
      rw [setReq_reqs_self, h3]
      exact hRle n
    · rw [setReq_reqs_ne _ _ _ _ hn2]
      exact hRle n
  · intro n hq
    by_cases hn2 : n = rid
    · subst hn2
      rw [setReq_reqs_self, h4] at hq
      rw [setReq_reqs_self, h1, h2]
      exact hUR n hq
    · rw [setReq_reqs_ne _ _ _ _ hn2] at hq
      rw [setReq_reqs_ne _ _ _ _ hn2]
      exact hUR n hq
  · intro n hsk
    by_cases hn2 : n = rid
    · subst hn2
      rw [setReq_reqs_self, h5] at hsk
      rw [setReq_reqs_self, h1, h2, h3, h4]
      exact hSkip n hsk
    · rw [setReq_reqs_ne _ _ _ _ hn2] at hsk
      rw [setReq_reqs_ne _ _ _ _ hn2]
      exact hSkip n hsk

theorem clientStep_inv (s : CState) (e : CEvent) (h : ClientInv s) :
    ClientInv (clientStep s e) := by
  cases e with
  | resp401 rid =>
    cases hin : (s.reqs rid).inFlight with
    | false =>
      rw [clientStep_resp401_stale s rid hin]
      exact h
    | true =>
      cases hcond : (shouldSkipRefresh (s.reqs rid).url || (s.reqs rid).retryFlag) with
      | true =>
        rw [clientStep_resp401_reject s rid hin hcond]
        exact ClientInv_setReq_frame s rid _ h rfl rfl rfl rfl rfl
      | false =>
        have hskip : shouldSkipRefresh (s.reqs rid).url = false :=
          (Bool.or_eq_false_iff.mp hcond).1
        have hflag : (s.reqs rid).retryFlag = false :=
          (Bool.or_eq_false_iff.mp hcond).2
        obtain ⟨hRN, hSubs, hIni, hFR, hRle, hUR, hSkip⟩ := h
        cases hr : s.isRefreshing with
        | true =>
          rw [clientStep_resp401_queue s rid hin hcond hr]
          refine ⟨?_, ?_, ?_, ?_, ?_, ?_, ?_⟩
          · intro hf
            exact absurd (show s.isRefreshing = false from hf) (by simp [hr])
          · intro n hn
            by_cases hn3 : n = rid
            · subst hn3
              rw [setReq_reqs_self]
              exact ⟨rfl, hskip⟩
            · have hn2 : n ∈ s.subscribers := by
                rcases List.mem_cons.mp hn with hx | hx
                · exact absurd hx hn3
                · exact hx
              rw [setReq_reqs_ne _ _ _ _ hn3]
              exact hSubs n hn2
          · intro n hini
            by_cases hn3 : n = rid
            · subst hn3
              exact absurd (hIni n hini).1 (by simp [hflag])
            · rw [setReq_reqs_ne _ _ _ _ hn3]
              exact hIni n hini
          · intro n hf
            by_cases hn3 : n = rid
            · subst hn3
              rw [setReq_reqs_self] at hf ⊢
              exact hFR n hf
            · rw [setReq_reqs_ne _ _ _ _ hn3] at hf ⊢
              exact hFR n hf
          · intro n
            by_cases hn3 : n = rid
            · subst hn3
              rw [setReq_reqs_self]
              exact hRle n
            · rw [setReq_reqs_ne _ _ _ _ hn3]
              exact hRle n
          · intro n hq
            by_cases hn3 : n = rid
            · subst hn3
              rw [setReq_reqs_self] at hq
              simp at hq
            · rw [setReq_reqs_ne _ _ _ _ hn3] at hq ⊢
              exact hUR n hq
          · intro n hsk
            by_cases hn3 : n = rid
            · subst hn3
              rw [setReq_reqs_self] at hsk
              exact absurd hsk (by simp [hskip])
            · rw [setReq_reqs_ne _ _ _ _ hn3] at hsk ⊢
              exact hSkip n hsk
        | false =>
          rw [clientStep_resp401_start s rid hin hcond hr]
          obtain ⟨hNone, hEmp⟩ := hRN hr
          refine ⟨?_, ?_, ?_, ?_, ?_, ?_, ?_⟩
          · intro hf
            simp at hf
          · intro n hn
            have hn2 : n ∈ s.subscribers := hn
            rw [hEmp] at hn2
            exact absurd hn2 (List.not_mem_nil n)
          · intro n hini
            have h2 : (some rid : Option Nat) = some n := hini
            injection h2 with h3
            subst h3
            rw [setReq_reqs_self]
            exact ⟨rfl, hskip, fun hq => (hUR rid hq).1 hflag⟩
          · intro n hf
            by_cases hn3 : n = rid
            · subst hn3
              rw [setReq_reqs_self] at hf
              simp at hf
            · rw [setReq_reqs_ne _ _ _ _ hn3] at hf ⊢
              exact hFR n hf
          · intro n
            by_cases hn3 : n = rid
            · subst hn3
              rw [setReq_reqs_self]
              have h0 := hFR n hflag
              show (s.reqs n).refreshes + 1 ≤ 1
              omega
            · rw [setReq_reqs_ne _ _ _ _ hn3]
              exact hRle n
          · intro n hq
            by_cases hn3 : n = rid
            · subst hn3
              rw [setReq_reqs_self] at hq
              have hq2 : (s.reqs n).everQueued = false := hq
              rw [setReq_reqs_self]
              refine ⟨fun hx => absurd hx (by simp), ?_⟩
              exact (hUR n hq2).2
            · rw [setReq_reqs_ne _ _ _ _ hn3] at hq ⊢
              exact hUR n hq
          · intro n hsk
            by_cases hn3 : n = rid
            · subst hn3
              rw [setReq_reqs_self] at hsk
              exact absurd (show shouldSkipRefresh (s.reqs n).url = true from hsk)
                (by simp [hskip])
            · rw [setReq_reqs_ne _ _ _ _ hn3] at hsk ⊢
              exact hSkip n hsk
  | respOk rid =>
    rw [clientStep_respOk_cases]
    by_cases hin : (s.reqs rid).inFlight
    · rw [if_pos hin]
      exact ClientInv_setReq_frame s rid _ h rfl rfl rfl rfl rfl
    · rw [if_neg hin]
      exact h
  | refreshOk =>
    cases hr : s.isRefreshing with
    | false =>
      rw [(clientStep_refresh_idle s hr).1]
      exact h
    | true =>
      rw [clientStep_refreshOk_run s hr]
      obtain ⟨hRN, hSubs, hIni, hFR, hRle, hUR, hSkip⟩ := h
      set s1 : CState := { s with isRefreshing := false, subscribers := [], refreshInitiator := none } with hs1
      have hms := foldl_retry_misc s.subscribers s1
      have hflds := fun n => foldl_retry_fields s.subscribers s1 n
      have htInv : ClientInv (s.subscribers.foldl retryReq s1) := by
        refine ⟨?_, ?_, ?_, ?_, ?_, ?_, ?_⟩
        · intro _
          exact ⟨hms.2.2.trans rfl, hms.2.1.trans rfl⟩
        · intro n hn
          rw [hms.2.1] at hn
          exact absurd (show n ∈ ([] : List Nat) from hn) (List.not_mem_nil n)
        · intro n hini
          rw [hms.2.2] at hini
          cases (show (none : Option Nat) = some n from hini)
        · intro n hf
          rw [(hflds n).1] at hf
          rw [(hflds n).2.1]
          exact hFR n hf
        · intro n
          rw [(hflds n).2.1]
          exact hRle n
        · intro n hq
          rw [(hflds n).2.2.1] at hq
          have hq2 : (s.reqs n).everQueued = false := hq
          have hnot : n ∉ s.subscribers := by
            intro hmem
            exact absurd (hSubs n hmem).1 (by simp [hq2])
          rw [(hflds n).1, foldl_retry_retries_not_mem _ _ _ hnot]
          exact hUR n hq2
        · intro n hsk
          rw [(hflds n).2.2.2] at hsk
          have hsk2 : shouldSkipRefresh ((s.reqs n).url) = true := hsk
          have hnot : n ∉ s.subscribers := by
            intro hmem
            exact absurd (hSubs n hmem).2 (by simp [hsk2])
          rw [(hflds n).1, (hflds n).2.1, (hflds n).2.2.1,
            foldl_retry_retries_not_mem _ _ _ hnot]
          exact hSkip n hsk2
      cases hini : s.refreshInitiator with
      | none => exact htInv
      | some i =>
        obtain ⟨tRN, tSubs, tIni, tFR, tRle, tUR, tSkip⟩ := htInv
        have hi := hIni i hini
        have hrf := fun n => retryReq_fields (s.subscribers.foldl retryReq s1) i n
        refine ⟨?_, ?_, ?_, ?_, ?_, ?_, ?_⟩
        · intro hx
          exact tRN hx
        · intro n hn
          have hn2 : n ∈ (s.subscribers.foldl retryReq s1).subscribers := hn
          rw [hms.2.1] at hn2
          exact absurd (show n ∈ ([] : List Nat) from hn2) (List.not_mem_nil n)
        · intro n hx
          have hx2 : (s.subscribers.foldl retryReq s1).refreshInitiator = some n := hx
          rw [hms.2.2] at hx2
          cases (show (none : Option Nat) = some n from hx2)
        · intro n hf
          rw [(hrf n).1] at hf
          rw [(hrf n).2.1]
          exact tFR n hf
        · intro n
          rw [(hrf n).2.1]
          exact tRle n
        · intro n hq
          rw [(hrf n).2.2.1] at hq
          by_cases hn3 : n = i
          · subst hn3
            have hq0 : (s.reqs n).everQueued = false := by
              have hq1 := hq
              rw [(hflds n).2.2.1] at hq1
              exact hq1
            have hnot : n ∉ s.subscribers := by
              intro hmem
              exact absurd (hSubs n hmem).1 (by simp [hq0])
            constructor
            · intro hx
              rw [(hrf n).1, (hflds n).1] at hx
              have hx3 : (s.reqs n).retryFlag = false := hx
              rw [hi.1] at hx3
              cases hx3
            · rw [retryReq_retries_self, foldl_retry_retries_not_mem _ _ _ hnot]
              have h1 : (s1.reqs n).retries = 0 := hi.2.2 hq0
              omega
          · rw [show ((retryReq (s.subscribers.foldl retryReq s1) i).reqs n) = ((s.subscribers.foldl retryReq s1).reqs n) from setReq_reqs_ne _ _ _ _ hn3]
            rw [(hflds n).2.2.1] at hq
            have hq2 : (s.reqs n).everQueued = false := hq
            obtain ⟨u1, u2⟩ := tUR n (by rw [(hflds n).2.2.1]; exact hq2)
            exact ⟨u1, u2⟩
        · intro n hsk
          rw [(hrf n).2.2.2] at hsk
          by_cases hn3 : n = i
          · subst hn3
            have hsk0 : shouldSkipRefresh ((s.reqs n).url) = true := by
              have hsk1 := hsk
              rw [(hflds n).2.2.2] at hsk1
              exact hsk1
            exact absurd hsk0 (by simp [hi.2.1])
          · rw [show ((retryReq (s.subscribers.foldl retryReq s1) i).reqs n) = ((s.subscribers.foldl retryReq s1).reqs n) from setReq_reqs_ne _ _ _ _ hn3]
            exact tSkip n hsk
  | refreshFail =>
    cases hr : s.isRefreshing with
    | false =>
      rw [(clientStep_refresh_idle s hr).2]
      exact h
    | true =>
      rw [clientStep_refreshFail_run s hr]
      obtain ⟨hRN, hSubs, hIni, hFR, hRle, hUR, hSkip⟩ := h
      have hs1Inv : ClientInv
          { s with isRefreshing := false, subscribers := [], refreshInitiator := none } := by
        refine ⟨fun _ => ⟨rfl, rfl⟩, ?_, ?_, hFR, hRle, hUR, hSkip⟩
        · intro n hn
          exact absurd (show n ∈ ([] : List Nat) from hn) (List.not_mem_nil n)
        · intro n hx
          cases (show (none : Option Nat) = some n from hx)
      cases hini : s.refreshInitiator with
      | none => exact hs1Inv
      | some i =>
        exact ClientInv_setReq_frame _ i _ hs1Inv rfl rfl rfl rfl rfl

theorem wfInit_clientInv (s : CState) (h : WfInit s) : ClientInv s := by
  obtain ⟨h1, h2, h3, h4⟩ := h
  refine ⟨fun _ => ⟨h3, h2⟩, ?_, ?_, ?_, ?_, ?_, ?_⟩
  · intro n hn
    rw [h2] at hn
    exact absurd hn (List.not_mem_nil n)
  · intro n hx
    rw [h3] at hx
    cases hx
  · intro n _
    exact (h4 n).2.2.1
  · intro n
    rw [(h4 n).2.2.1]
    exact Nat.zero_le 1
  · intro n _
    refine ⟨fun _ => (h4 n).2.1, ?_⟩
    rw [(h4 n).2.1]
    exact Nat.zero_le 1
  · intro n _
    exact ⟨(h4 n).1, (h4 n).2.1, (h4 n).2.2.1, (h4 n).2.2.2⟩

theorem runClient_inv (s : CState) (evs : List CEvent) (h : ClientInv s) :
    ClientInv (runClient s evs) := by
  induction evs generalizing s with
  | nil => exact h
  | cons e t ih =>
    rw [runClient, List.foldl_cons]
    exact ih (clientStep s e) (clientStep_inv s e h)

/-- C10 (amended): over any event sequence from a well-formed start, every
request causes at most one token refresh (guarded by the `_retry` flag);
requests whose URL contains one of the three skip endpoints are never
refreshed, retried or marked `_retry`; a request that is never queued
behind a concurrent refresh is retried at most once; a 401 on a request
already marked `_retry` is rejected immediately, touching only that
request; and a failed refresh rejects the initiating request without
re-sending it.  The unamended per-request bound "at most one retry" fails
for requests queued behind a concurrent refresh, whose retry does not set
`_retry` — see the counterexample. -/
theorem c10_amended_refresh_protocol (init : CState) (evs : List CEvent)
    (s : CState) (rid : Nat) (h : WfInit init) :
    (((runClient init evs).reqs rid).refreshes ≤ 1) ∧
    (shouldSkipRefresh (((runClient init evs).reqs rid).url) = true →
      ((runClient init evs).reqs rid).retries = 0 ∧
      ((runClient init evs).reqs rid).refreshes = 0 ∧
      ((runClient init evs).reqs rid).retryFlag = false) ∧
    (((runClient init evs).reqs rid).everQueued = false →
      ((runClient init evs).reqs rid).retries ≤ 1) ∧
    ((s.reqs rid).inFlight = true → (s.reqs rid).retryFlag = true →
      clientStep s (CEvent.resp401 rid) =
        setReq s rid { s.reqs rid with inFlight := false, rejectedFinal := true }) ∧
    (s.isRefreshing = true → s.refreshInitiator = some rid →
      ((clientStep s CEvent.refreshFail).reqs rid).rejectedFinal = true ∧
      ((clientStep s CEvent.refreshFail).reqs rid).retries = (s.reqs rid).retries) := by
  obtain ⟨hRN, hSubs, hIni, hFR, hRle, hUR, hSkip⟩ :=
    runClient_inv init evs (wfInit_clientInv init h)
  refine ⟨hRle rid, ?_, ?_, ?_, ?_⟩
  · intro hsk
    obtain ⟨a, b, c, d⟩ := hSkip rid hsk
    exact ⟨b, c, a⟩
  · intro hq
    exact (hUR rid hq).2
  · intro hin hflag
    exact clientStep_resp401_reject s rid hin (by simp [hflag])
  · intro hr hini
    rw [clientStep_refreshFail_run s hr]
    simp only [hini]
    constructor <;> rw [setReq_reqs_self]

/-- Counterexample to C10 as stated: with two concurrent requests, the one
queued behind the other's refresh is re-sent without `_retry` being set,
receives a second 401, starts its own refresh and is re-sent once more —
two retries of the same original request. -/
theorem c10_counterexample_queued_retry :
    ¬ (((runClient twoReqInit queuedRetryScript).reqs 1).retries ≤ 1) := by decide

/-- Witness for the amended C10 at the concrete two-request start state. -/
theorem c10_amended_refresh_protocol_witness :
    ((runClient twoReqInit []).reqs 0).refreshes ≤ 1 :=
  (c10_amended_refresh_protocol twoReqInit [] twoReqInit 0
    ⟨rfl, rfl, rfl, fun rid => by
      simp only [twoReqInit]
      split_ifs <;> simp [initReq]⟩).1
